import Mathlib

/-!
# Verification of the rdflib Hextuples parser
(`rdflib/plugins/parsers/hext.py`)

A shallow embedding of the Hextuples line decoder and term-resolution
logic.  Python strings are modelled as Lean `String`; a JSON scalar that
is either a string or `null` is `Option String`; a raw input line is
abstracted by the result of `json.loads` on it: `none` when the line is
not parseable JSON, `some ret1` when it parses to the array `ret1` of
string-or-null elements (the Hextuples wire format has no nested
structures, numbers or booleans).

Python exceptions are modelled explicitly with `Except`:
`json.JSONDecodeError` from `json.loads`, `IndexError` from an
out-of-range list access, the `ValueError` raised by `_parse_hextuple`
(which embeds the offending record in its message), and the
`AssertionError` from the context-aware assertion in `parse`.

The store behind the `ConjunctiveGraph` is modelled as the list of
inserted statements in insertion order, each tagged with its context:
`Ctx.dflt` for a 3-element `cg.add` (which inserts into
`cg.default_context`, set by `parse` to the caller-supplied graph), and
`Ctx.named g` for a 4-element `cg.add` with context `URIRef(g)`.
-/

/-- A JSON scalar element of a hextuple line: a string or `null`. -/
abbrev JVal := Option String

/-- The result of `json.loads` on one raw text line: `none` when the
line is not parseable, otherwise the parsed array of scalars. -/
abbrev Line := Option (List JVal)

/-- The Python exceptions that the parser can raise. -/
inductive HexError where
  /-- `json.JSONDecodeError` escaping from `json.loads(line)`. -/
  | decodeError
  /-- `IndexError` from an out-of-range `tup[i]` access. -/
  | indexError
  /-- The `ValueError("subject, predicate, value, datatype cannot be
  None. Given: {tup}")` raised by `_parse_hextuple`; it names the
  offending record. -/
  | validationError (rec : List JVal)
  /-- `AssertionError` from `assert graph.store.context_aware`. -/
  | capabilityError
  deriving DecidableEq, Repr

/-- The kind of an RDF literal: datatype-typed (`Literal(v, datatype=URIRef d)`)
or language-tagged (`Literal(v, lang=l)`), never both. -/
inductive LitKind where
  | typed (datatype : String)
  | lang (tag : String)
  deriving DecidableEq, Repr

/-- An RDF term as constructed by the parser: `URIRef`, `BNode`, or `Literal`. -/
inductive Term where
  | IRI (s : String)
  | BNode (s : String)
  | Lit (value : String) (kind : LitKind)
  deriving DecidableEq, Repr

/-- The context a statement is inserted into: the caller-supplied default
graph (3-element `cg.add`), or the named graph `URIRef g`
(4-element `cg.add`). -/
inductive Ctx where
  | dflt
  | named (iri : String)
  deriving DecidableEq, Repr

/-- The contents of the context-aware store: inserted statements in
insertion order. -/
abbrev ConjGraph := List (Term × Term × Term × Ctx)

/-- Python `s.startswith(pre)`. -/
def pyStartsWith (s pre : String) : Bool :=
  pre.data.isPrefixOf s.data

/-- Recursion core of Python `s.replace(pat, rep)`: replaces every
non-overlapping occurrence of `pat`, scanning left to right.  `fuel`
bounds the recursion; `pyReplace` supplies `s.length`, which suffices
because each step consumes at least one character of `s`. -/
def pyReplaceAux (pat rep : List Char) : Nat → List Char → List Char
  | _, [] => []
  | 0, s => s
  | Nat.succ fuel, c :: rest =>
      if pat ≠ [] ∧ pat.isPrefixOf (c :: rest) then
        rep ++ pyReplaceAux pat rep fuel (List.drop pat.length (c :: rest))
      else
        c :: pyReplaceAux pat rep fuel rest

/-- Python `s.replace(pat, rep)` (replace all occurrences).  The source
only ever calls it with the non-empty pattern `"_:"`; for completeness
an empty pattern interleaves `rep` around every character as Python does. -/
def pyReplace (s pat rep : String) : String :=
  if pat = "" then
    ⟨rep.data ++ (s.data.map (fun c => c :: rep.data)).flatten⟩
  else
    ⟨pyReplaceAux pat.data rep.data s.data.length s.data⟩

/-- Python `tup[i]` on a list: the element, or `IndexError` when `i` is
out of range. -/
def pyIdx (tup : List JVal) (i : Nat) : Except HexError JVal :=
  match tup.get? i with
  | some v => .ok v
  | none => .error .indexError

/-- `HextuplesParser._load_json_line`, composed with `json.loads`:

    ret1 = json.loads(line)                        -- decodeError when unparseable
    ret2 = [x if x != "" else None for x in ret1]
    if ret1[2] == "":                              -- IndexError when len(ret1) < 3
        ret2[2] = ""
    return ret2

There is no arity check: any parsed array with at least 3 elements is
returned (normalized), whatever its length. -/
def load_json_line (line : Line) : Except HexError (List JVal) :=
  match line with
  | none => .error HexError.decodeError
  | some ret1 =>
      let ret2 := ret1.map (fun x => if x = some "" then none else x)
      match ret1.get? 2 with
      | none => .error HexError.indexError
      | some v => .ok (if v = some "" then ret2.set 2 (some "") else ret2)

/-- `HextuplesParser._parse_hextuple(cg, tup)`.  Mirrors the source
statement by statement, including evaluation order of the `tup[i]`
accesses (Python's `or` short-circuits, so `tup[0] is None` raises the
`ValueError` before `tup[1]` is ever read; `tup[4]` is only read in the
literal branch; `tup[5]` is read on every successful path).  On success
it appends exactly one statement to the store, tagged `Ctx.named g`
when `tup[5]` is non-null (`cg.add((s, p, o, c))`) and `Ctx.dflt`
otherwise (`cg.add((s, p, o))`). -/
def parse_hextuple (cg : ConjGraph) (tup : List JVal) : Except HexError ConjGraph :=
  -- if tup[0] is None or tup[1] is None or tup[2] is None or tup[3] is None:
  --     raise ValueError(...)
  match pyIdx tup 0 with
  | .error e => .error e
  | .ok none => .error (.validationError tup)
  | .ok (some s0) =>
    match pyIdx tup 1 with
    | .error e => .error e
    | .ok none => .error (.validationError tup)
    | .ok (some s1) =>
      match pyIdx tup 2 with
      | .error e => .error e
      | .ok none => .error (.validationError tup)
      | .ok (some s2) =>
        match pyIdx tup 3 with
        | .error e => .error e
        | .ok none => .error (.validationError tup)
        | .ok (some s3) =>
          -- s = BNode(value=tup[0].replace("_:", "")) if tup[0].startswith("_")
          --     else URIRef(tup[0])
          let s : Term :=
            if pyStartsWith s0 "_" then Term.BNode (pyReplace s0 "_:" "")
            else Term.IRI s0
          -- p = URIRef(tup[1])
          let p : Term := Term.IRI s1
          -- object dispatch on tup[3]
          let oRes : Except HexError Term :=
            if s3 = "globalId" then .ok (Term.IRI s2)
            else if s3 = "localId" then .ok (Term.BNode (pyReplace s2 "_:" ""))
            else
              match pyIdx tup 4 with
              | .error e => .error e
              | .ok none => .ok (Term.Lit s2 (LitKind.typed s3))
              | .ok (some lg) => .ok (Term.Lit s2 (LitKind.lang lg))
          match oRes with
          | .error e => .error e
          | .ok o =>
            -- context: quad when tup[5] is not None, else triple
            match pyIdx tup 5 with
            | .error e => .error e
            | .ok (some g) => .ok (cg ++ [(s, p, o, Ctx.named g)])
            | .ok none => .ok (cg ++ [(s, p, o, Ctx.dflt)])

/-- One iteration of the line loop in `HextuplesParser.parse`:
`self._parse_hextuple(cg, self._load_json_line(l))`. -/
def processLine (cg : ConjGraph) (line : Line) : Except HexError ConjGraph :=
  match load_json_line line with
  | .error e => .error e
  | .ok tup => parse_hextuple cg tup

/-- The line loop of `parse`: `for l in ...: self._parse_hextuple(cg,
self._load_json_line(l))`.  The store is mutated in place, so the result
carries the store contents together with the first exception, if any;
an exception aborts the loop at that line and leaves the store as it
was after the last successful line. -/
def parseLines (cg : ConjGraph) : List Line → ConjGraph × Option HexError
  | [] => (cg, none)
  | l :: rest =>
    match processLine cg l with
    | .ok cg2 => parseLines cg2 rest
    | .error e => (cg, some e)

/-- The caller-supplied graph handed to `HextuplesParser.parse`:
`graph.store.context_aware` plus the statements held by the store. -/
structure Graph where
  context_aware : Bool
  quads : ConjGraph
  deriving DecidableEq, Repr

/-- `HextuplesParser.parse(source, graph)`.  The non-fatal `encoding`
warning is omitted (it never alters behaviour).  The body asserts
`graph.store.context_aware` before touching any input, then wraps the
store in a `ConjunctiveGraph` whose `default_context` is the
caller-supplied graph (modelled by `Ctx.dflt`) and runs the line loop
over the source's lines (both the file-backed and the in-memory source
branches iterate lines identically). -/
def hexParse (g : Graph) (lines : List Line) : Graph × Option HexError :=
  if g.context_aware then
    let r := parseLines g.quads lines
    ({ g with quads := r.1 }, r.2)
  else
    (g, some HexError.capabilityError)

/-- Evaluation of `parse_hextuple` on a validated 6-position record:
no exception is raised and exactly one statement is appended, with each
term as computed by the source. -/
theorem parse_hextuple_valid_eq (cg : ConjGraph) (s0 s1 s2 s3 : String) (t4 t5 : JVal) :
    parse_hextuple cg [some s0, some s1, some s2, some s3, t4, t5] =
      .ok (cg ++ [(
        (if pyStartsWith s0 "_" then Term.BNode (pyReplace s0 "_:" "") else Term.IRI s0),
        Term.IRI s1,
        (if s3 = "globalId" then Term.IRI s2
         else if s3 = "localId" then Term.BNode (pyReplace s2 "_:" "")
         else match t4 with
           | none => Term.Lit s2 (LitKind.typed s3)
           | some lg => Term.Lit s2 (LitKind.lang lg)),
        (match t5 with
         | none => Ctx.dflt
         | some g => Ctx.named g))]) := by
  by_cases h1 : s3 = "globalId"
  · subst h1; cases t4 <;> cases t5 <;> rfl
  · by_cases h2 : s3 = "localId"
    · subst h2; cases t4 <;> cases t5 <;> rfl
    · cases t4 <;> cases t5 <;>
        simp [parse_hextuple, pyIdx, h1, h2]

/-- C1: for every decoded 6-element line, empty-string normalization is
asymmetric: in positions 0, 1, 3, 4, 5 an empty string becomes null,
while position 2 (value) is preserved exactly as parsed (an empty
string stays an empty string, null stays null); in particular decoding
`["", "p", "", "d", "", ""]` yields subject = null, predicate = "p",
value = "" (not null), datatype = "d", language = null, graph = null. -/
theorem C1_empty_string_normalization :
    (∀ a b c d e f : JVal,
      load_json_line (some [a, b, c, d, e, f]) =
        .ok [(if a = some "" then none else a),
             (if b = some "" then none else b),
             c,
             (if d = some "" then none else d),
             (if e = some "" then none else e),
             (if f = some "" then none else f)]) ∧
    load_json_line (some [some "", some "p", some "", some "d", some "", some ""]) =
      .ok [none, some "p", some "", some "d", none, none] := by
  refine ⟨fun a b c d e f => ?_, rfl⟩
  by_cases hc : c = some "" <;> simp [load_json_line, hc]

/-- C2 counterexample: the subject `"_x"` starts with `"_"` but not with
the two-character prefix `"_:"`, yet the code resolves it to
`BNode("_x")`, not `IRI("_x")` as the claim requires. -/
theorem C2_counterexample :
    parse_hextuple [] [some "_x", some "p", some "v", some "globalId", none, none] =
      .ok [(Term.BNode "_x", Term.IRI "p", Term.IRI "v", Ctx.dflt)] ∧
    pyStartsWith "_x" "_:" = false ∧
    Term.BNode "_x" ≠ Term.IRI "_x" := ⟨rfl, rfl, by decide⟩

/-- C2 (amended): for every validated record, the subject term is a
`BNode` whose identifier is the subject string with every occurrence of
`"_:"` removed, exactly when the subject string starts with the single
character `"_"` (not the two-character prefix `"_:"`); for every other
subject string the subject term is `IRI` of the unmodified string. -/
theorem C2_subject_resolution (cg : ConjGraph) (s0 s1 s2 s3 : String) (t4 t5 : JVal) :
    ∃ o c, parse_hextuple cg [some s0, some s1, some s2, some s3, t4, t5] =
      .ok (cg ++ [((if pyStartsWith s0 "_" then Term.BNode (pyReplace s0 "_:" "")
                    else Term.IRI s0), Term.IRI s1, o, c)]) :=
  ⟨_, _, parse_hextuple_valid_eq cg s0 s1 s2 s3 t4 t5⟩

/-- C3 counterexample: with datatype `"localId"` and value `"a_:b"`
(which does not start with `"_:"`, so the claim requires the value to be
kept unchanged), the code resolves the object to `BNode("ab")`:
`replace` removes every occurrence of `"_:"`, not just a leading
prefix. -/
theorem C3_counterexample :
    parse_hextuple [] [some "s", some "p", some "a_:b", some "localId", none, none] =
      .ok [(Term.IRI "s", Term.IRI "p", Term.BNode "ab", Ctx.dflt)] ∧
    pyStartsWith "a_:b" "_:" = false ∧
    Term.BNode "ab" ≠ Term.BNode "a_:b" := ⟨rfl, rfl, by decide⟩

/-- C3 (amended): for every validated record, when the datatype field is
`"globalId"` the object term is `IRI(value)` with the value unchanged;
when it is `"localId"` the object term is a `BNode` whose identifier is
the value with every occurrence of `"_:"` removed (not merely a leading
prefix). -/
theorem C3_object_id_dispatch (cg : ConjGraph) (s0 s1 s2 : String) (t4 t5 : JVal) :
    (∃ s c, parse_hextuple cg [some s0, some s1, some s2, some "globalId", t4, t5] =
      .ok (cg ++ [(s, Term.IRI s1, Term.IRI s2, c)])) ∧
    (∃ s c, parse_hextuple cg [some s0, some s1, some s2, some "localId", t4, t5] =
      .ok (cg ++ [(s, Term.IRI s1, Term.BNode (pyReplace s2 "_:" ""), c)])) :=
  ⟨⟨_, _, parse_hextuple_valid_eq cg s0 s1 s2 "globalId" t4 t5⟩,
   ⟨_, _, parse_hextuple_valid_eq cg s0 s1 s2 "localId" t4 t5⟩⟩

/-- C4: for every validated record whose datatype is neither
`"globalId"` nor `"localId"`, the object is a literal over the value
field: when the language field is non-null the object is the
language-tagged `Literal(value, lang=language)` and the datatype string
is ignored; when the language field is null the object is the typed
`Literal(value, datatype=URIRef(datatype))`. -/
theorem C4_literal_dispatch (cg : ConjGraph) (s0 s1 s2 s3 : String) (t4 t5 : JVal)
    (hg : s3 ≠ "globalId") (hl : s3 ≠ "localId") :
    parse_hextuple cg [some s0, some s1, some s2, some s3, t4, t5] =
      .ok (cg ++ [((if pyStartsWith s0 "_" then Term.BNode (pyReplace s0 "_:" "")
                    else Term.IRI s0),
                   Term.IRI s1,
                   (match t4 with
                    | some lg => Term.Lit s2 (LitKind.lang lg)
                    | none => Term.Lit s2 (LitKind.typed s3)),
                   (match t5 with
                    | some g => Ctx.named g
                    | none => Ctx.dflt))]) := by
  cases t4 <;> cases t5 <;> (rw [parse_hextuple_valid_eq]; simp [hg, hl])

/-- C4 witness: an XSD-string datatype together with language `"en"`
produces the language-tagged literal, the datatype being discarded. -/
theorem C4_witness :
    parse_hextuple [] [some "s", some "p", some "hi",
        some "http://www.w3.org/2001/XMLSchema#string", some "en", none] =
      .ok [(Term.IRI "s", Term.IRI "p", Term.Lit "hi" (LitKind.lang "en"), Ctx.dflt)] := by
  have h := C4_literal_dispatch [] "s" "p" "hi" "http://www.w3.org/2001/XMLSchema#string"
      (some "en") none (by decide) (by decide)
  simpa using h

/-- C5 counterexample: a line parsing to a 7-element array decodes
successfully — the decoder performs no arity check, so an array with
more than 6 positions is not a decode error. -/
theorem C5_counterexample :
    load_json_line
        (some [some "s", some "p", some "v", some "d", some "l", some "g", some "x"]) =
      .ok [some "s", some "p", some "v", some "d", some "l", some "g", some "x"] ∧
    ([some "s", some "p", some "v", some "d", some "l", some "g", some "x"] : List JVal).length
      = 7 := ⟨rfl, rfl⟩

/-- C5 (amended): decoding fails with a `DecodeError` exactly when the
line is not parseable; there is no exact-arity-6 check.  A parsed array
with fewer than 3 elements fails with an `IndexError` (from the access
to position 2), not a `DecodeError`; a parsed array with 3 or more
elements always decodes successfully, whatever its length, the extra
elements carried through. -/
theorem C5_decode_no_arity_check :
    (load_json_line none = .error HexError.decodeError) ∧
    (∀ r : List JVal, r.length < 3 →
      load_json_line (some r) = .error HexError.indexError) ∧
    (∀ r : List JVal, 3 ≤ r.length →
      ∃ out, load_json_line (some r) = .ok out ∧ out.length = r.length) := by
  refine ⟨rfl, ?_, ?_⟩
  · intro r hr
    have h2 : r.get? 2 = none := List.get?_eq_none.mpr (by omega)
    rw [List.get?_eq_getElem?] at h2
    simp [load_json_line, h2]
  · intro r hr
    obtain ⟨v, hv⟩ : ∃ v, r.get? 2 = some v := by
      cases h : r.get? 2 with
      | none => exact absurd (List.get?_eq_none.mp h) (by omega)
      | some v => exact ⟨v, rfl⟩
    rw [List.get?_eq_getElem?] at hv
    by_cases hv2 : v = some ""
    · exact ⟨(r.map (fun x => if x = some "" then none else x)).set 2 (some ""),
        by simp [load_json_line, hv, hv2], by simp⟩
    · exact ⟨r.map (fun x => if x = some "" then none else x),
        by simp [load_json_line, hv, hv2], by simp⟩

/-- C5 witness: a 2-element array raises `IndexError` (not
`DecodeError`), and a 4-element array decodes successfully. -/
theorem C5_witness :
    load_json_line (some [some "a", some ""]) = .error HexError.indexError ∧
    ∃ out, load_json_line (some [some "a", none, some "v", some "d"]) = .ok out ∧
      out.length = ([some "a", none, some "v", some "d"] : List JVal).length :=
  ⟨C5_decode_no_arity_check.2.1 [some "a", some ""] (by decide),
   C5_decode_no_arity_check.2.2 [some "a", none, some "v", some "d"] (by decide)⟩

/-- C6: for every decoded 6-position record, term resolution raises the
`ValueError` that names the offending record if and only if at least one
of positions 0 (subject), 1 (predicate), 2 (value), 3 (datatype) is
null; when those four are non-null the record resolves successfully, so
a null language or graph alone never causes a validation failure. -/
theorem C6_validation (cg : ConjGraph) (t0 t1 t2 t3 t4 t5 : JVal) :
    parse_hextuple cg [t0, t1, t2, t3, t4, t5] =
        .error (HexError.validationError [t0, t1, t2, t3, t4, t5]) ↔
      (t0 = none ∨ t1 = none ∨ t2 = none ∨ t3 = none) := by
  cases t0 <;> cases t1 <;> cases t2 <;> cases t3 <;>
    simp only [parse_hextuple_valid_eq] <;> simp [parse_hextuple, pyIdx]

/-- C7: for every validated record, a non-null graph field routes the
statement into the store as a quad whose context is `URIRef(graph)`
(4-element `cg.add`), while a null graph field routes the very same
terms as a triple into the caller-supplied default graph
(`cg.default_context`, set by `parse` to the caller's graph). -/
theorem C7_context_routing (cg : ConjGraph) (s0 s1 s2 s3 : String) (t4 : JVal) (g : String) :
    ∃ s p o,
      parse_hextuple cg [some s0, some s1, some s2, some s3, t4, some g] =
        .ok (cg ++ [(s, p, o, Ctx.named g)]) ∧
      parse_hextuple cg [some s0, some s1, some s2, some s3, t4, none] =
        .ok (cg ++ [(s, p, o, Ctx.dflt)]) :=
  ⟨_, _, _, parse_hextuple_valid_eq cg s0 s1 s2 s3 t4 (some g),
    parse_hextuple_valid_eq cg s0 s1 s2 s3 t4 none⟩

/-- C8: parsing against a store that is not context-aware fails with the
`AssertionError` before any input line is processed: the result store is
exactly the input store, whatever the lines. -/
theorem C8_capability_check (g : Graph) (lines : List Line)
    (h : g.context_aware = false) :
    hexParse g lines = (g, some HexError.capabilityError) := by
  simp [hexParse, h]

/-- C8 witness: a non-context-aware empty store with one well-formed
line yields the capability error and an unchanged store. -/
theorem C8_witness :
    hexParse ⟨false, []⟩ [some [some "s", some "p", some "v", some "globalId", none, none]] =
      (⟨false, []⟩, some HexError.capabilityError) :=
  C8_capability_check ⟨false, []⟩
    [some [some "s", some "p", some "v", some "globalId", none, none]] rfl

/-- If every line of `pre` succeeds and the next line `l` raises, the
loop stops at `l`: the outcome over `pre ++ l :: post` is the store
reached after `pre` together with `l`'s exception, for any `post`. -/
theorem parseLines_append_error (pre : List Line) :
    ∀ (cg : ConjGraph) (l : Line) (post : List Line) (e : HexError),
      (parseLines cg pre).2 = none →
      processLine (parseLines cg pre).1 l = .error e →
      parseLines cg (pre ++ l :: post) = ((parseLines cg pre).1, some e) := by
  induction pre with
  | nil =>
      intro cg l post e _ hl
      simp only [parseLines, List.nil_append] at hl ⊢
      rw [hl]
  | cons a pre ih =>
      intro cg l post e hpre hl
      cases ha : processLine cg a with
      | error e2 => simp [parseLines, ha] at hpre
      | ok cg2 =>
          have hred : parseLines cg (a :: pre) = parseLines cg2 pre := by
            simp [parseLines, ha]
          rw [hred] at hpre hl
          rw [List.cons_append,
            show parseLines cg (a :: (pre ++ l :: post)) = parseLines cg2 (pre ++ l :: post) from
              by simp [parseLines, ha],
            hred]
          exact ih cg2 l post e hpre hl

/-- Any successful `parse_hextuple` call appends exactly one statement
to the store. -/
theorem parse_hextuple_ok_shape (cg : ConjGraph) (tup : List JVal) (cg2 : ConjGraph)
    (h : parse_hextuple cg tup = .ok cg2) : ∃ q, cg2 = cg ++ [q] := by
  simp only [parse_hextuple] at h
  repeat' split at h
  all_goals first
    | (rw [Except.ok.injEq] at h; exact ⟨_, h.symm⟩)
    | exact absurd h (by simp)

/-- Any successful line iteration appends exactly one statement. -/
theorem processLine_ok_shape (cg : ConjGraph) (l : Line) (cg2 : ConjGraph)
    (h : processLine cg l = .ok cg2) : ∃ q, cg2 = cg ++ [q] := by
  unfold processLine at h
  split at h
  · exact absurd h (by simp)
  · exact parse_hextuple_ok_shape _ _ _ h

/-- A fully successful run over `pre` leaves the store equal to the
initial store followed by exactly one statement per line of `pre`. -/
theorem parseLines_store_shape (pre : List Line) :
    ∀ cg, (parseLines cg pre).2 = none →
      ∃ tail, (parseLines cg pre).1 = cg ++ tail ∧ tail.length = pre.length := by
  induction pre with
  | nil => exact fun cg _ => ⟨[], by simp [parseLines], rfl⟩
  | cons a pre ih =>
      intro cg hpre
      cases ha : processLine cg a with
      | error e => simp [parseLines, ha] at hpre
      | ok cg2 =>
          have hred : parseLines cg (a :: pre) = parseLines cg2 pre := by
            simp [parseLines, ha]
          rw [hred] at hpre ⊢
          obtain ⟨tail, ht, hlen⟩ := ih cg2 hpre
          obtain ⟨q, hq⟩ := processLine_ok_shape cg a cg2 ha
          exact ⟨q :: tail, by rw [ht, hq]; simp, by simp [hlen]⟩

/-- C9: parsing is fail-fast.  If every line of `pre` succeeds and line
`l` raises exception `e`, the whole parse over `pre ++ l :: post`
terminates at `l` with `e` and a store unchanged since `pre` — the
result is the same for every `post`, so no line after the bad one is
decoded, validated, or emitted. -/
theorem C9_fail_fast (cg : ConjGraph) (pre : List Line) (l : Line) (post : List Line)
    (e : HexError)
    (hpre : (parseLines cg pre).2 = none)
    (hl : processLine (parseLines cg pre).1 l = .error e) :
    parseLines cg (pre ++ l :: post) = ((parseLines cg pre).1, some e) :=
  parseLines_append_error pre cg l post e hpre hl

/-- C9 witness: a well-formed first line followed by an unparseable line
and a further well-formed line stops at the unparseable line with the
`DecodeError`. -/
theorem C9_witness :
    parseLines [] ([some [some "a", some "b", some "v", some "globalId", none, none]] ++
        none :: [some [some "c", some "d", some "w", some "globalId", none, none]]) =
      ((parseLines [] [some [some "a", some "b", some "v", some "globalId", none, none]]).1,
        some HexError.decodeError) :=
  C9_fail_fast [] [some [some "a", some "b", some "v", some "globalId", none, none]]
    none [some [some "c", some "d", some "w", some "globalId", none, none]]
    HexError.decodeError rfl rfl

/-- C10: failure mid-stream is not atomic.  When every line of `pre`
succeeds and line `l` raises `e`, the store at failure equals the store
reached after `pre` — the statements of the earlier lines, one per line,
have already been inserted after the initial contents and remain there;
the parser performs no rollback. -/
theorem C10_no_rollback (cg : ConjGraph) (pre : List Line) (l : Line) (post : List Line)
    (e : HexError)
    (hpre : (parseLines cg pre).2 = none)
    (hl : processLine (parseLines cg pre).1 l = .error e) :
    (parseLines cg (pre ++ l :: post)).1 = (parseLines cg pre).1 ∧
    ∃ inserted, (parseLines cg (pre ++ l :: post)).1 = cg ++ inserted ∧
      inserted.length = pre.length := by
  have hff := parseLines_append_error pre cg l post e hpre hl
  obtain ⟨tail, ht, hlen⟩ := parseLines_store_shape pre cg hpre
  exact ⟨by rw [hff], tail, by rw [hff]; exact ht, hlen⟩

/-- C10 witness: after one successful line, a line whose array is too
short raises `IndexError`, and the first line's statement is still in
the store (one statement inserted, none rolled back). -/
theorem C10_witness :
    (parseLines [] ([some [some "a", some "p", some "v", some "globalId", none, none]] ++
        some [some "s"] :: [])).1 =
      (parseLines [] [some [some "a", some "p", some "v", some "globalId", none, none]]).1 ∧
    ∃ inserted,
      (parseLines [] ([some [some "a", some "p", some "v", some "globalId", none, none]] ++
          some [some "s"] :: [])).1 = [] ++ inserted ∧
      inserted.length =
        ([some [some "a", some "p", some "v", some "globalId", none, none]] : List Line).length :=
  C10_no_rollback [] [some [some "a", some "p", some "v", some "globalId", none, none]]
    (some [some "s"]) [] HexError.indexError rfl rfl
